import Mathlib

/-!
Verification of the LegalTrack case-workflow core (src/core/models.py and
src/core/views.py) against its natural-language specification.

The embedding models the Django ORM rows as Lean structures, timestamps as
abstract `Nat` instants supplied by the caller, and each state-changing view
as a function from the request context and the current row to either an
error (the view redirects with an error message and performs no write) or
the saved row together with the audit-log entry the view creates.
-/

namespace LegalTrack

/-- The seven account roles of `CustomUser.ROLE_CHOICES` (src/core/models.py). -/
inductive Role where
  | super_admin
  | lgu_admin
  | capitol_receiving
  | capitol_examiner
  | capitol_approver
  | capitol_numberer
  | capitol_releaser
  deriving DecidableEq, Repr

/-- The case statuses of `Case.STATUS_CHOICES` (src/core/models.py). -/
inductive Status where
  | draft
  | not_received
  | received
  | in_review
  | for_approval
  | approved
  | for_numbering
  | for_release
  | released
  | returned
  | withdrawn
  deriving DecidableEq, Repr

/-- Database key of each status, as stored in the `status` column. -/
def statusStr : Status → String
  | .draft => "draft"
  | .not_received => "not_received"
  | .received => "received"
  | .in_review => "in_review"
  | .for_approval => "for_approval"
  | .approved => "approved"
  | .for_numbering => "for_numbering"
  | .for_release => "for_release"
  | .released => "released"
  | .returned => "returned"
  | .withdrawn => "withdrawn"

/-- A `CustomUser` row, restricted to the fields the workflow core reads. -/
structure User where
  id : Nat
  role : Role
  username : String
  email : String
  is_active : Bool
  deriving DecidableEq, Repr

/-- One checklist entry of `Case.checklist` (a JSON list of dicts). -/
structure ChecklistItem where
  doc_type : String
  required : Bool
  uploaded : Bool
  deriving DecidableEq, Repr

/-- A `Case` row (src/core/models.py).  Nullable columns are `Option`;
datetimes are abstract instants (`Nat`). -/
structure Case where
  id : Nat
  tracking_id : Option String
  status : Status
  client_name : String
  client_contact : String
  client_first_name : String
  client_last_name : String
  client_middle_name : String
  client_suffix : String
  client_number : String
  client_email : String
  case_type : String
  numbering_number : Option String
  submitted_by : Option Nat
  checklist : List ChecklistItem
  received_by : Option Nat
  received_at : Option Nat
  returned_by : Option Nat
  returned_at : Option Nat
  return_reason : String
  assigned_to : Option Nat
  assigned_at : Option Nat
  released_at : Option Nat
  lgu_submitted_at : Option Nat
  created_at : Nat
  updated_at : Nat
  deriving DecidableEq, Repr

/-- An `AuditLog` row, restricted to the fields the transition views write. -/
structure AuditEntry where
  actor : Option Nat
  action : String
  target_object : String
  details : List (String × String)
  deriving DecidableEq, Repr

/-- Caller-visible rejection kinds for the transition views (the error
taxonomy of spec section 6; each view surfaces them as an error message
plus a redirect, with no database write). -/
inductive TErr where
  | unauthorized_role
  | invalid_state
  | precondition_failed
  | not_found
  | allocation_exhausted
  | internal_error
  deriving DecidableEq, Repr

/-- Equality of view results is decidable componentwise. -/
instance {e a : Type} [DecidableEq e] [DecidableEq a] : DecidableEq (Except e a) := fun x y =>
  match x, y with
  | .error u, .error v =>
    if h : u = v then isTrue (by rw [h])
    else isFalse (fun hc => h (by injection hc))
  | .error _, .ok _ => isFalse (fun hc => Except.noConfusion hc)
  | .ok _, .error _ => isFalse (fun hc => Except.noConfusion hc)
  | .ok u, .ok v =>
    if h : u = v then isTrue (by rw [h])
    else isFalse (fun hc => h (by injection hc))

/-! ### String helpers mirroring the Python operations used by the source -/

/-- Strip characters satisfying `p` from both ends (Python `str.strip`). -/
def stripBy (p : Char → Bool) (s : String) : String :=
  ⟨((s.data.dropWhile p).reverse.dropWhile p).reverse⟩

/-- Python `str.strip()` (whitespace strip). -/
def pyStrip (s : String) : String := stripBy Char.isWhitespace s

/-- Case folding used to model Django's `__iexact` lookup. -/
def strLower (s : String) : String := ⟨s.data.map Char.toLower⟩

/-- Decimal value of a digit list (Python `int` on an all-digit string). -/
def digitsVal (l : List Char) : Nat :=
  l.foldl (fun a ch => a * 10 + (ch.toNat - 48)) 0

/-- Python `tid[-4:]` — the last four characters. -/
def lastFour (s : String) : List Char := s.data.drop (s.data.length - 4)

/-- Python `f"{n:04d}"`: decimal digits, zero-padded on the left to width 4. -/
def pad4 (n : Nat) : String :=
  let s := toString n
  if s.length < 4 then ⟨List.replicate (4 - s.length) '0'⟩ ++ s else s

/-- Python `", ".join([p for p in parts if p])`. -/
def joinNonEmpty (sep : String) (parts : List String) : String :=
  String.intercalate sep (parts.filter (fun p => p ≠ ""))

/-! ### Case display properties and the `Case.save` override -/

/-- `Case.client_display_name` (src/core/models.py). -/
def client_display_name (c : Case) : String :=
  let ln := pyStrip c.client_last_name
  let fn := pyStrip c.client_first_name
  let mn := pyStrip c.client_middle_name
  let sx := pyStrip c.client_suffix
  if ln ≠ "" ∨ fn ≠ "" ∨ mn ≠ "" ∨ sx ≠ "" then
    let main := joinNonEmpty ", " [ln, fn]
    let rest := joinNonEmpty " " [mn, sx]
    stripBy (fun ch => ch = ',') (pyStrip (main ++ (if rest ≠ "" then " " ++ rest else "")))
  else
    pyStrip c.client_name

/-- `Case.client_display_contact` (src/core/models.py). -/
def client_display_contact (c : Case) : String :=
  let em := pyStrip c.client_email
  let num := pyStrip c.client_number
  if em ≠ "" ∧ num ≠ "" then num ++ " / " ++ em
  else if num ≠ "" then num
  else if em ≠ "" then em
  else pyStrip c.client_contact

/-- The legacy-field sync at the top of `Case.save`: populate `client_name`
and `client_contact` from the structured client fields when blank.  (The
`client_display_contact` fallback to `client_contact` is only reached when
`client_contact` strips to empty, so reading it before or after the name
update is equivalent; the two branches touch disjoint fields.) -/
def syncClientFields (c : Case) : Case :=
  { c with
    client_name :=
      if pyStrip c.client_name = "" ∧ pyStrip (client_display_name c) ≠ "" then
        pyStrip (client_display_name c)
      else c.client_name,
    client_contact :=
      if pyStrip c.client_contact = "" ∧ pyStrip (client_display_contact c) ≠ "" then
        pyStrip (client_display_contact c)
      else c.client_contact }

/-- `Case.save` on the branches that do not allocate a tracking id (the row
already has one, or `lgu_submitted_at` is null): legacy-field sync plus the
`auto_now` refresh of `updated_at`.  All nine transition views fetch the
case by `tracking_id`, so their full saves take this branch. -/
def save_basic (now : Nat) (c : Case) : Case :=
  { syncClientFields c with updated_at := now }

/-! ### Sequence allocation -/

/-- `Case.generate_tracking_id` (src/core/models.py) given the scope string
`"PAS" ++ YY ++ MM` for the current month and the tracking ids already in
the table: scan ids sharing the scope, take the maximum of their trailing
four digits, and fail (Python raises `ValueError`) past 9999. -/
def generate_tracking_id (scope : String) (existing : List String) : Except String String :=
  let relevant := existing.filter (fun tid => scope.data.isPrefixOf tid.data)
  let maxSeq := relevant.foldl
    (fun m tid =>
      if 4 ≤ tid.data.length ∧ (lastFour tid).all Char.isDigit then
        max m (digitsVal (lastFour tid))
      else m) 0
  if maxSeq + 1 > 9999 then .error "Monthly case sequence exceeded 9999"
  else .ok (scope ++ pad4 (maxSeq + 1))

/-- Sequence number an identifier carries under the allocation scheme the
specification describes: the identifier is the scope followed by exactly
four digits. -/
def seqOfId (scope tid : String) : Option Nat :=
  if scope.data.isPrefixOf tid.data ∧ tid.data.length = scope.data.length + 4
      ∧ (tid.data.drop scope.data.length).all Char.isDigit then
    some (digitsVal (tid.data.drop scope.data.length))
  else none

/-- Largest sequence number among existing identifiers of the scope (0 when
none exist), as the specification computes it. -/
def specMaxSeq (scope : String) (existing : List String) : Nat :=
  (existing.filterMap (seqOfId scope)).foldl max 0

/-- The role-to-code table of `CustomUser.generate_staff_id`. -/
def pfxMap : Role → String
  | .super_admin => "ADM"
  | .lgu_admin => "LGU"
  | .capitol_receiving => "REC"
  | .capitol_examiner => "EXM"
  | .capitol_approver => "APR"
  | .capitol_numberer => "NUM"
  | .capitol_releaser => "REL"

/-- `CustomUser.objects.filter(role=rolePfx).order_by("id").last()` — the
user with the largest primary key among those holding the role. -/
def last_user_by_id (rolePfx : Role) (users : List User) : Option User :=
  (users.filter (fun u => u.role = rolePfx)).foldl
    (fun acc u =>
      match acc with
      | none => some u
      | some v => if v.id ≤ u.id then some u else some v)
    none

/-- `CustomUser.generate_staff_id` (src/core/models.py): the sequence is
`last_user.id + 1` — one past the primary key of the newest user holding
the role — not a parse of existing staff identifiers. -/
def generate_staff_id (rolePfx : Role) (users : List User) : String :=
  let seq := match last_user_by_id rolePfx users with
    | some u => u.id + 1
    | none => 1
  "25-" ++ pfxMap rolePfx ++ "-" ++ pad4 seq

/-- Staff-id sequence as the claim describes it: scan existing staff
identifiers (usernames) sharing the role's identifier prefix and take
1 + the maximum parsed sequence. -/
def claim_staff_seq (rolePfx : Role) (users : List User) : Nat :=
  let p := "25-" ++ pfxMap rolePfx ++ "-"
  (users.filterMap (fun u =>
    if p.data.isPrefixOf u.username.data then
      some (digitsVal (u.username.data.drop p.data.length))
    else none)).foldl max 0 + 1

/-! ### Visibility -/

/-- `_is_capitol_staff` (src/core/views.py): the role string starts with
`"capitol_"`. -/
def is_capitol_staff (u : User) : Bool :=
  match u.role with
  | .capitol_receiving | .capitol_examiner | .capitol_approver
  | .capitol_numberer | .capitol_releaser => true
  | _ => false

/-- `_user_can_view_case` (src/core/views.py). -/
def user_can_view_case (u : User) (c : Case) : Bool :=
  if u.role = .super_admin ∨ is_capitol_staff u then true
  else if u.role = .lgu_admin then c.submitted_by = some u.id
  else false

/-- How a case read is surfaced to the caller. -/
inductive ViewOutcome where
  | ok
  | notFound
  | forbidden
  deriving DecidableEq, Repr

/-- The access-control portion of `case_detail` (src/core/views.py): a
denied view raises `Http404`, never a forbidden response. -/
def case_detail (u : User) (c : Case) : ViewOutcome :=
  if user_can_view_case u c then .ok else .notFound

/-- The visibility rule as the claim states it: Super Admin always; the
case-submitting (LGU/Receiving) roles exactly on their own cases; everyone
else never. -/
def claim_can_view (u : User) (c : Case) : Bool :=
  if u.role = .super_admin then true
  else if u.role = .lgu_admin ∨ u.role = .capitol_receiving then
    c.submitted_by = some u.id
  else false

/-! ### The nine capitol transition views (src/core/views.py)

Each takes the acting user, the request instant, payload, and the case row
fetched by `get_object_or_404(Case, tracking_id=...)`, and returns either a
rejection or the saved row and the audit entry created after the save. -/

/-- `f"Case: {case.tracking_id}"`. -/
def targetOf (c : Case) : String := "Case: " ++ c.tracking_id.getD "None"

/-- `receive_case`: Capitol Receiving marks a pending or returned case as
received (full `case.save()`). -/
def receive_case (actor : User) (now : Nat) (c : Case) :
    Except TErr (Case × AuditEntry) :=
  if actor.role ≠ .capitol_receiving then .error .unauthorized_role
  else if ¬(c.status = .not_received ∨ c.status = .returned) then .error .invalid_state
  else
    let c' := save_basic now
      { c with status := .received, received_at := some now, received_by := some actor.id }
    .ok (c', { actor := some actor.id, action := "case_receipt", target_object := targetOf c',
               details := [("new_status", statusStr c'.status)] })

/-- `return_case`: Capitol Receiving returns an unassigned pending/received
case to the LGU, clearing `lgu_submitted_at` (full `case.save()`). -/
def return_case (actor : User) (now : Nat) (reasonRaw : String) (c : Case) :
    Except TErr (Case × AuditEntry) :=
  if actor.role ≠ .capitol_receiving then .error .unauthorized_role
  else if ¬(c.status = .not_received ∨ c.status = .received) then .error .invalid_state
  else if c.assigned_to ≠ none then .error .precondition_failed
  else if pyStrip reasonRaw = "" then .error .precondition_failed
  else
    let c' := save_basic now
      { c with status := .returned, return_reason := pyStrip reasonRaw,
               returned_at := some now, returned_by := some actor.id,
               lgu_submitted_at := none }
    .ok (c', { actor := some actor.id, action := "case_status_change",
               target_object := targetOf c',
               details := [("new_status", statusStr c'.status),
                           ("reason", pyStrip reasonRaw)] })

/-- `assign_case`: Capitol Receiving assigns a received, unassigned case to
an active examiner (full `case.save()`). -/
def assign_case (actor : User) (users : List User) (now : Nat) (examiner_id : Nat)
    (c : Case) : Except TErr (Case × AuditEntry) :=
  if actor.role ≠ .capitol_receiving then .error .unauthorized_role
  else if c.status ≠ .received ∨ c.assigned_to ≠ none then .error .invalid_state
  else
    match users.find? (fun u =>
        decide (u.id = examiner_id ∧ u.role = .capitol_examiner ∧ u.is_active = true)) with
    | none => .error .not_found
    | some ex =>
      let c' := save_basic now
        { c with assigned_to := some ex.id, assigned_at := some now, status := .in_review }
      .ok (c', { actor := some actor.id, action := "case_assignment",
                 target_object := targetOf c',
                 details := [("new_status", statusStr c'.status), ("assigned_to", ex.email)] })

/-- `submit_for_approval`: the assigned examiner forwards an in-review case
(`save(update_fields=["status", "updated_at"])`). -/
def submit_for_approval (actor : User) (now : Nat) (c : Case) :
    Except TErr (Case × AuditEntry) :=
  if actor.role ≠ .capitol_examiner then .error .unauthorized_role
  else if c.status ≠ .in_review ∨ c.assigned_to ≠ some actor.id then .error .invalid_state
  else
    let c' := { c with status := .for_approval, updated_at := now }
    .ok (c', { actor := some actor.id, action := "case_status_change",
               target_object := targetOf c',
               details := [("old_status", statusStr c.status), ("new_status", statusStr c'.status)] })

/-- `approve_case`: a Capitol Approver moves a for-approval case to
numbering (`save(update_fields=["status", "updated_at"])`). -/
def approve_case (actor : User) (now : Nat) (c : Case) :
    Except TErr (Case × AuditEntry) :=
  if actor.role ≠ .capitol_approver then .error .unauthorized_role
  else if c.status ≠ .for_approval then .error .invalid_state
  else
    let c' := { c with status := .for_numbering, updated_at := now }
    .ok (c', { actor := some actor.id, action := "case_approval",
               target_object := targetOf c',
               details := [("old_status", statusStr c.status), ("new_status", statusStr c'.status)] })

/-- `return_for_correction`: a Capitol Approver returns a for-approval case,
recording the reason and clearing the assignment. -/
def return_for_correction (actor : User) (now : Nat) (reasonRaw : String) (c : Case) :
    Except TErr (Case × AuditEntry) :=
  if actor.role ≠ .capitol_approver then .error .unauthorized_role
  else if c.status ≠ .for_approval then .error .invalid_state
  else if pyStrip reasonRaw = "" then .error .precondition_failed
  else
    let c' := { c with status := .returned, return_reason := pyStrip reasonRaw,
                       returned_at := some now, returned_by := some actor.id,
                       assigned_to := none, assigned_at := none, updated_at := now }
    .ok (c', { actor := some actor.id, action := "case_rejection",
               target_object := targetOf c',
               details := [("old_status", statusStr c.status),
                           ("new_status", statusStr c'.status),
                           ("reason", pyStrip reasonRaw)] })

/-- `return_to_receiving`: the assigned examiner sends an in-review case back
to Receiving, recording the reason and clearing the assignment. -/
def return_to_receiving (actor : User) (now : Nat) (reasonRaw : String) (c : Case) :
    Except TErr (Case × AuditEntry) :=
  if actor.role ≠ .capitol_examiner then .error .unauthorized_role
  else if c.status ≠ .in_review ∨ c.assigned_to ≠ some actor.id then .error .invalid_state
  else if pyStrip reasonRaw = "" then .error .precondition_failed
  else
    let c' := { c with status := .received, return_reason := pyStrip reasonRaw,
                       returned_at := some now, returned_by := some actor.id,
                       assigned_to := none, assigned_at := none, updated_at := now }
    .ok (c', { actor := some actor.id, action := "case_status_change",
               target_object := targetOf c',
               details := [("old_status", statusStr c.status),
                           ("new_status", statusStr c'.status),
                           ("reason", pyStrip reasonRaw),
                           ("to", "capitol_receiving")] })

/-- Django `filter(numbering_number__iexact=num).exclude(id=cid).exists()`:
some other case already holds the number, compared case-insensitively
(SQL NULL never matches). -/
def numbering_dupe (table : List Case) (cid : Nat) (num : String) : Bool :=
  table.any (fun o =>
    decide (o.id ≠ cid) &&
      match o.numbering_number with
      | some m => decide (strLower m = strLower num)
      | none => false)

/-- `mark_numbered`: a Capitol Numberer records the manually assigned number
on a for-numbering case; blank or already-used numbers are rejected before
any write. -/
def mark_numbered (actor : User) (now : Nat) (table : List Case) (rawNum : String)
    (c : Case) : Except TErr (Case × AuditEntry) :=
  if actor.role ≠ .capitol_numberer then .error .unauthorized_role
  else if c.status ≠ .for_numbering then .error .invalid_state
  else if pyStrip rawNum = "" then .error .precondition_failed
  else if numbering_dupe table c.id (pyStrip rawNum) then .error .precondition_failed
  else
    let c' := { c with numbering_number := some (pyStrip rawNum),
                       status := .for_release, updated_at := now }
    .ok (c', { actor := some actor.id, action := "case_status_change",
               target_object := targetOf c',
               details := [("old_status", statusStr c.status),
                           ("new_status", statusStr c'.status),
                           ("number", pyStrip rawNum)] })

/-- `release_case`: a Capitol Releaser releases a for-release case, stamping
`released_at`. -/
def release_case (actor : User) (now : Nat) (c : Case) :
    Except TErr (Case × AuditEntry) :=
  if actor.role ≠ .capitol_releaser then .error .unauthorized_role
  else if c.status ≠ .for_release then .error .invalid_state
  else
    let c' := { c with status := .released, released_at := some now, updated_at := now }
    .ok (c', { actor := some actor.id, action := "case_release",
               target_object := targetOf c',
               details := [("old_status", statusStr c.status), ("new_status", statusStr c'.status)] })

/-- The nine workflow transition requests, with their request payloads. -/
inductive Action where
  | receive
  | return_to_lgu (reason : String)
  | assign (examiner_id : Nat)
  | submit_approval
  | approve
  | correction (reason : String)
  | to_receiving (reason : String)
  | number (num : String)
  | release
  deriving DecidableEq, Repr

/-- Dispatch a transition request to its view. -/
def runAction (act : Action) (actor : User) (users : List User) (now : Nat)
    (table : List Case) (c : Case) : Except TErr (Case × AuditEntry) :=
  match act with
  | .receive => receive_case actor now c
  | .return_to_lgu reason => return_case actor now reason c
  | .assign eid => assign_case actor users now eid c
  | .submit_approval => submit_for_approval actor now c
  | .approve => approve_case actor now c
  | .correction reason => return_for_correction actor now reason c
  | .to_receiving reason => return_to_receiving actor now reason c
  | .number num => mark_numbered actor now table num c
  | .release => release_case actor now c

/-- The role the specification's transition table (spec section 4.2) lists
for an action from a given status; `none` when the action is not available
from that status. -/
def specAllowedRole : Status → Action → Option Role
  | .not_received, .receive => some .capitol_receiving
  | .returned, .receive => some .capitol_receiving
  | .not_received, .return_to_lgu _ => some .capitol_receiving
  | .received, .return_to_lgu _ => some .capitol_receiving
  | .received, .assign _ => some .capitol_receiving
  | .in_review, .submit_approval => some .capitol_examiner
  | .in_review, .to_receiving _ => some .capitol_examiner
  | .for_approval, .approve => some .capitol_approver
  | .for_approval, .correction _ => some .capitol_approver
  | .for_numbering, .number _ => some .capitol_numberer
  | .for_release, .release => some .capitol_releaser
  | _, _ => none

/-! ### Persistent state: the Case table and the audit log -/

/-- The persistent rows the workflow core owns. -/
structure DB where
  cases : List Case
  log : List AuditEntry
  deriving DecidableEq, Repr

/-- `get_object_or_404(Case, tracking_id=tid)`. -/
def findCase (db : DB) (tid : String) : Option Case :=
  db.cases.find? (fun c => decide (c.tracking_id = some tid))

/-- Persist a saved row back into the table (rows are keyed by pk). -/
def updateCase (cs : List Case) (c' : Case) : List Case :=
  cs.map (fun o => if o.id = c'.id then c' else o)

/-- Commit a successful transition: the saved case row plus the appended
audit entry. -/
def commitOk (db : DB) (c' : Case) (e : AuditEntry) : DB :=
  { cases := updateCase db.cases c', log := db.log ++ [e] }

/-- A transition request against the database: fetch by tracking id, run the
view, and on success persist the row and append the audit entry. -/
def runView (act : Action) (actor : User) (users : List User) (now : Nat)
    (db : DB) (tid : String) : DB × Option TErr :=
  match findCase db tid with
  | none => (db, some .not_found)
  | some c =>
    match runAction act actor users now db.cases c with
    | .error e => (db, some e)
    | .ok (c', entry) => (commitOk db c' entry, none)

/-- Modelled from the spec: the transaction configuration lives in
`legaltrack/settings.py`, which is not under src (only `manage.py` and
`wsgi.py` name it), so the durable-commit boundary cannot be read off the
source.  Spec sections 2 and 5 state that every transition request runs
inside one durable transaction ("All of this happens inside one atomic unit
of work spanning: precondition check, mutation, identifier allocation,
audit append"), so a failed audit append rolls the whole request back.
`appendOk` is whether the durable audit append succeeds; on failure nothing
commits and the caller sees an internal error. -/
def runViewTx (act : Action) (actor : User) (users : List User) (now : Nat)
    (appendOk : Bool) (db : DB) (tid : String) : DB × Option TErr :=
  match findCase db tid with
  | none => (db, some .not_found)
  | some c =>
    match runAction act actor users now db.cases c with
    | .error e => (db, some e)
    | .ok (c', entry) =>
      if appendOk then (commitOk db c' entry, none)
      else (db, some .internal_error)

/-! ### LGU-side case operations (src/core/views.py)

These are the remaining views that write `Case` rows: creation and the
draft/submission wizards.  Form payloads carry the cleaned (whitespace-
stripped, validated) values of `CaseDetailsForm`. -/

/-- The cleaned payload of `CaseDetailsForm` (`Meta.fields`). -/
structure CaseForm where
  client_first_name : String
  client_last_name : String
  client_middle_name : String
  client_suffix : String
  client_number : String
  client_email : String
  case_type : String
  deriving DecidableEq, Repr

/-- `CaseDetailsForm.clean`: first name, last name and case type required. -/
def formValid (f : CaseForm) : Bool :=
  pyStrip f.client_first_name ≠ "" ∧ pyStrip f.client_last_name ≠ "" ∧
    pyStrip f.case_type ≠ ""

/-- `form.save(commit=False)` applied to an existing row: write the model
fields the form owns. -/
def applyForm (f : CaseForm) (c : Case) : Case :=
  { c with client_first_name := f.client_first_name,
           client_last_name := f.client_last_name,
           client_middle_name := f.client_middle_name,
           client_suffix := f.client_suffix,
           client_number := f.client_number,
           client_email := f.client_email,
           case_type := f.case_type }

/-- `_lgu_owns_case` (src/core/views.py). -/
def lgu_owns_case (u : User) (c : Case) : Bool :=
  (u.role = .lgu_admin ∨ u.role = .capitol_receiving) ∧ c.submitted_by = some u.id

/-- `_lgu_can_edit_details` (src/core/views.py). -/
def lgu_can_edit_details (u : User) (c : Case) : Bool :=
  lgu_owns_case u c ∧
    (c.status = .draft ∨ c.status = .not_received ∨ c.status = .returned)

/-- `_lgu_can_edit_documents` (src/core/views.py). -/
def lgu_can_edit_documents (u : User) (c : Case) : Bool :=
  lgu_can_edit_details u c ∧ (c.status = .returned ∨ c.lgu_submitted_at = none)

/-- `_lgu_can_finalize` (src/core/views.py). -/
def lgu_can_finalize (u : User) (c : Case) : Bool :=
  lgu_can_edit_details u c ∧ (c.lgu_submitted_at = none ∨ c.status = .returned)

/-- An unsaved `Case()` instance with column defaults (src/core/models.py):
status defaults to `not_received`, nullable columns to null, strings to
blank. -/
def newCaseRow (pk : Nat) (createdNow : Nat) : Case :=
  { id := pk, tracking_id := none, status := .not_received,
    client_name := "", client_contact := "", client_first_name := "",
    client_last_name := "", client_middle_name := "", client_suffix := "",
    client_number := "", client_email := "", case_type := "",
    numbering_number := none, submitted_by := none, checklist := [],
    received_by := none, received_at := none, returned_by := none,
    returned_at := none, return_reason := "", assigned_to := none,
    assigned_at := none, released_at := none, lgu_submitted_at := none,
    created_at := createdNow, updated_at := createdNow }

/-- `submit_case` creating a fresh draft (no recent duplicate matched):
the new row is saved with `status="draft"`, no tracking id, owner set, and
the checklist seeded from the case-type requirement list. -/
def submit_case_new (actor : User) (now : Nat) (pk : Nat) (f : CaseForm)
    (seed : List ChecklistItem) : Except TErr Case :=
  if ¬(actor.role = .lgu_admin ∨ actor.role = .capitol_receiving) then
    .error .unauthorized_role
  else if ¬ formValid f then .error .precondition_failed
  else
    .ok (save_basic now
      { applyForm f (newCaseRow pk now) with
          status := .draft, submitted_by := some actor.id, lgu_submitted_at := none,
          checklist := seed })

/-- `submit_case` matching a recent duplicate draft: the existing row (same
owner, created within the last two minutes, `lgu_submitted_at` null, status
in draft/not_received/returned, same cleaned client fields) is updated with
the form values and forced back to `status="draft"`
(`save(update_fields=[...Meta.fields, "status", "lgu_submitted_at",
"updated_at"])`, so no legacy-field sync is persisted). -/
def submit_case_dedup (actor : User) (now : Nat) (f : CaseForm) (c : Case) :
    Except TErr Case :=
  if ¬(actor.role = .lgu_admin ∨ actor.role = .capitol_receiving) then
    .error .unauthorized_role
  else if ¬ formValid f then .error .precondition_failed
  else if ¬(c.submitted_by = some actor.id ∧ now ≤ c.created_at + 120 ∧
        c.lgu_submitted_at = none ∧
        (c.status = .draft ∨ c.status = .not_received ∨ c.status = .returned) ∧
        c.client_first_name = f.client_first_name ∧
        c.client_last_name = f.client_last_name ∧
        c.client_middle_name = f.client_middle_name ∧
        c.client_suffix = f.client_suffix ∧ c.case_type = f.case_type) then
    .error .not_found
  else
    .ok { applyForm f c with status := .draft, lgu_submitted_at := none,
                             updated_at := now }

/-- `draft_wizard` step 1 (details form on a draft-editable case, keyed by
`draft_id`): already-submitted tracked cases are redirected away; the form
values are saved with `status="draft"` and `lgu_submitted_at=None` via a
full `case.save()`. -/
def draft_wizard_step1 (actor : User) (now : Nat) (f : CaseForm) (c : Case) :
    Except TErr Case :=
  if c.tracking_id ≠ none ∧ c.lgu_submitted_at ≠ none then .error .invalid_state
  else if ¬(actor.role = .lgu_admin ∨ actor.role = .capitol_receiving) then
    .error .unauthorized_role
  else if ¬ lgu_can_edit_details actor c then .error .invalid_state
  else if ¬ formValid f then .error .precondition_failed
  else
    .ok (save_basic now
      { applyForm f c with status := .draft, lgu_submitted_at := none })

/-- `draft_wizard` step 2 (checklist/uploads): saves the new checklist with
`status="draft"` and `lgu_submitted_at=None`
(`save(update_fields=["checklist", "status", "updated_at",
"lgu_submitted_at"])`). -/
def draft_wizard_step2 (actor : User) (now : Nat) (newChecklist : List ChecklistItem)
    (c : Case) : Except TErr Case :=
  if c.tracking_id ≠ none ∧ c.lgu_submitted_at ≠ none then .error .invalid_state
  else if ¬(actor.role = .lgu_admin ∨ actor.role = .capitol_receiving) then
    .error .unauthorized_role
  else if ¬ lgu_can_edit_details actor c then .error .invalid_state
  else if ¬ lgu_can_edit_documents actor c then .error .invalid_state
  else
    .ok { c with checklist := newChecklist, status := .draft,
                 lgu_submitted_at := none, updated_at := now }

/-- `draft_wizard` step 3 POST (finalize a draft): sets
`status="not_received"` and stamps `lgu_submitted_at`; the save
(`update_fields` including `tracking_id`) allocates a tracking id when the
row has none.  `scope` is the `"PAS" ++ YYMM` prefix for the request's
month and `existing` the tracking ids already in the table. -/
def draft_wizard_finalize (actor : User) (now : Nat) (scope : String)
    (existing : List String) (c : Case) : Except TErr Case :=
  if c.tracking_id ≠ none ∧ c.lgu_submitted_at ≠ none then .error .invalid_state
  else if ¬(actor.role = .lgu_admin ∨ actor.role = .capitol_receiving) then
    .error .unauthorized_role
  else if ¬ lgu_can_edit_details actor c then .error .invalid_state
  else if ¬ lgu_can_finalize actor c then .error .invalid_state
  else
    match c.tracking_id with
    | some _ =>
      .ok { c with status := .not_received, lgu_submitted_at := some now,
                   updated_at := now }
    | none =>
      match generate_tracking_id scope existing with
      | .error _ => .error .allocation_exhausted
      | .ok tid =>
        .ok { c with status := .not_received, lgu_submitted_at := some now,
                     tracking_id := some tid, updated_at := now }

/-- `case_wizard` step 1 (details form on a tracked case, keyed by
`tracking_id`): `form.save()` performs a full `case.save()` without touching
status or submission fields. -/
def case_wizard_step1 (actor : User) (now : Nat) (f : CaseForm) (c : Case) :
    Except TErr Case :=
  if c.tracking_id = none then .error .not_found
  else if ¬(actor.role = .lgu_admin ∨ actor.role = .capitol_receiving) then
    .error .unauthorized_role
  else if ¬ lgu_can_edit_details actor c then .error .invalid_state
  else if ¬ formValid f then .error .precondition_failed
  else .ok (save_basic now (applyForm f c))

/-- `case_wizard` step 2 (checklist/uploads on a tracked case): saves the new
checklist, flips a returned case back to `not_received`, and clears
`lgu_submitted_at` (`save(update_fields=["checklist", "status",
"updated_at", "lgu_submitted_at"])`). -/
def case_wizard_step2 (actor : User) (now : Nat) (newChecklist : List ChecklistItem)
    (c : Case) : Except TErr Case :=
  if c.tracking_id = none then .error .not_found
  else if ¬(actor.role = .lgu_admin ∨ actor.role = .capitol_receiving) then
    .error .unauthorized_role
  else if ¬ lgu_can_edit_details actor c then .error .invalid_state
  else if ¬ lgu_can_edit_documents actor c then .error .invalid_state
  else
    .ok { c with checklist := newChecklist,
                 status := if c.status = .returned then .not_received else c.status,
                 lgu_submitted_at := none, updated_at := now }

/-- `case_wizard` step 3 POST (finalize a tracked case): flips a returned
case back to `not_received` and stamps `lgu_submitted_at`
(`save(update_fields=["status", "lgu_submitted_at", "updated_at"])`; the
guarded row already has a tracking id, so no allocation happens). -/
def case_wizard_finalize (actor : User) (now : Nat) (c : Case) : Except TErr Case :=
  if c.tracking_id = none then .error .not_found
  else if ¬(actor.role = .lgu_admin ∨ actor.role = .capitol_receiving) then
    .error .unauthorized_role
  else if ¬ lgu_can_edit_details actor c then .error .invalid_state
  else if ¬ lgu_can_finalize actor c then .error .invalid_state
  else
    .ok { c with status := if c.status = .returned then .not_received else c.status,
                 lgu_submitted_at := some now, updated_at := now }

/-! ### The lifecycle of a single case row

`Step c c'` holds when some request successfully rewrites the row `c` to
`c'`; `ReachableCase c` when `c` arises from a fresh `submit_case` creation
followed by such steps.  (Draft deletion ends a lifecycle and is omitted:
it produces no further states.) -/

/-- Successful single-row rewrites, one constructor per state-changing view. -/
inductive Step : Case → Case → Prop where
  | transition (act : Action) (actor : User) (users : List User) (now : Nat)
      (table : List Case) (c c' : Case) :
      (runAction act actor users now table c).toOption.map Prod.fst = some c' →
      Step c c'
  | dedup (actor : User) (now : Nat) (f : CaseForm) (c c' : Case) :
      (submit_case_dedup actor now f c).toOption = some c' → Step c c'
  | draft1 (actor : User) (now : Nat) (f : CaseForm) (c c' : Case) :
      (draft_wizard_step1 actor now f c).toOption = some c' → Step c c'
  | draft2 (actor : User) (now : Nat) (l : List ChecklistItem) (c c' : Case) :
      (draft_wizard_step2 actor now l c).toOption = some c' → Step c c'
  | draftFin (actor : User) (now : Nat) (scope : String) (existing : List String)
      (c c' : Case) :
      (draft_wizard_finalize actor now scope existing c).toOption = some c' → Step c c'
  | wiz1 (actor : User) (now : Nat) (f : CaseForm) (c c' : Case) :
      (case_wizard_step1 actor now f c).toOption = some c' → Step c c'
  | wiz2 (actor : User) (now : Nat) (l : List ChecklistItem) (c c' : Case) :
      (case_wizard_step2 actor now l c).toOption = some c' → Step c c'
  | wizFin (actor : User) (now : Nat) (c c' : Case) :
      (case_wizard_finalize actor now c).toOption = some c' → Step c c'

/-- Case rows reachable through the application's own views. -/
inductive ReachableCase : Case → Prop where
  | created (actor : User) (now : Nat) (pk : Nat) (f : CaseForm)
      (seed : List ChecklistItem) (c : Case) :
      (submit_case_new actor now pk f seed).toOption = some c → ReachableCase c
  | step {c c' : Case} : ReachableCase c → Step c c' → ReachableCase c'

/-! ### Concrete rows used to evaluate the development on sample data -/

/-- A sample LGU Admin account. -/
def lguA : User :=
  { id := 1, role := .lgu_admin, username := "25-LGU-0001", email := "a@lgu.gov",
    is_active := true }

/-- A sample Capitol Receiving account. -/
def recvB : User :=
  { id := 2, role := .capitol_receiving, username := "25-REC-0001", email := "b@cap.gov",
    is_active := true }

/-- A sample Capitol Examiner account. -/
def exmC : User :=
  { id := 3, role := .capitol_examiner, username := "25-EXM-0001", email := "c@cap.gov",
    is_active := true }

/-- A sample Capitol Approver account. -/
def aprD : User :=
  { id := 4, role := .capitol_approver, username := "25-APR-0001", email := "d@cap.gov",
    is_active := true }

/-- A sample Capitol Numberer account. -/
def numE : User :=
  { id := 5, role := .capitol_numberer, username := "25-NUM-0001", email := "e@cap.gov",
    is_active := true }

/-- A sample Capitol Releaser account. -/
def relF : User :=
  { id := 6, role := .capitol_releaser, username := "25-REL-0001", email := "f@cap.gov",
    is_active := true }

/-- A sample valid details form. -/
def formA : CaseForm :=
  { client_first_name := "Juan", client_last_name := "Cruz", client_middle_name := "",
    client_suffix := "", client_number := "", client_email := "",
    case_type := "land_first_time" }

/-- The sample case as created by `submit_case` (a draft). -/
def caseD0 : Case :=
  match submit_case_new lguA 10 1 formA [] with
  | .ok c => c
  | .error _ => newCaseRow 1 10

/-- The sample case after `draft_wizard` finalize: first submission of the
month, so it receives tracking id `PAS26010001`. -/
def caseD1 : Case :=
  match draft_wizard_finalize lguA 20 "PAS2601" [] caseD0 with
  | .ok c => c
  | .error _ => caseD0

/-- The sample case after Capitol Receiving returns it to the LGU, with the
audit entry recorded for the return. -/
def retD2 : Case × AuditEntry :=
  match return_case recvB 30 "missing docs" caseD1 with
  | .ok p => p
  | .error _ =>
    (caseD1, { actor := none, action := "", target_object := "", details := [] })

/-- The sample case after Capitol Receiving returns it to the LGU. -/
def caseD2 : Case := retD2.1

/-- The sample returned case finalized again by its owner. -/
def caseD2fin : Case :=
  { caseD2 with status := Status.not_received, lgu_submitted_at := some 35,
                updated_at := 35 }

/-- The sample returned case after its owner reopens the details form
(`draft_wizard` step 1), which forces `status="draft"` while the tracking
id stays in place. -/
def caseD3 : Case :=
  match draft_wizard_step1 lguA 40 formA caseD2 with
  | .ok c => c
  | .error _ => caseD2

/-- The sample case received by Capitol Receiving. -/
def caseE2 : Case :=
  match receive_case recvB 50 caseD1 with
  | .ok (c, _) => c
  | .error _ => caseD1

/-- The sample case assigned to the examiner. -/
def caseE3 : Case :=
  match assign_case recvB [exmC] 51 3 caseE2 with
  | .ok (c, _) => c
  | .error _ => caseE2

/-- The sample case submitted for approval. -/
def caseE4 : Case :=
  match submit_for_approval exmC 52 caseE3 with
  | .ok (c, _) => c
  | .error _ => caseE3

/-- The sample case approved. -/
def caseE5 : Case :=
  match approve_case aprD 53 caseE4 with
  | .ok (c, _) => c
  | .error _ => caseE4

/-- The sample case numbered. -/
def caseE6 : Case :=
  match mark_numbered numE 54 [caseE5] "NUM-0001" caseE5 with
  | .ok (c, _) => c
  | .error _ => caseE5

/-- The sample case released. -/
def caseE7 : Case :=
  match release_case relF 55 caseE6 with
  | .ok (c, _) => c
  | .error _ => caseE6

/-- Staff table with interleaved roles: the examiner holds pk 1, the LGU
admin pk 2; the only LGU staff identifier in use carries sequence 0001. -/
def staffUsers : List User :=
  [{ id := 1, role := .capitol_examiner, username := "25-EXM-0001",
     email := "e@cap.gov", is_active := true },
   { id := 2, role := .lgu_admin, username := "25-LGU-0001",
     email := "l@lgu.gov", is_active := true }]

/-- A case submitted by user 3, viewed by the sample examiner. -/
def caseV : Case :=
  { newCaseRow 9 0 with
      tracking_id := some "PAS26010005", status := .received,
      submitted_by := some 3 }

/-- A tracked pending case whose legacy `client_contact` is blank while the
structured `client_number` is set (producible via the `submit_case`
duplicate-draft consolidation, which persists form fields without the
legacy-field sync, followed by finalization). -/
def caseContact : Case :=
  { newCaseRow 3 0 with
      tracking_id := some "PAS26010009", status := .not_received,
      client_name := "Juan Cruz", client_number := "0917", submitted_by := some 1 }

/-- The row and audit entry produced by receiving `caseContact`. -/
def caseContactRecd : Case × AuditEntry :=
  match receive_case recvB 50 caseContact with
  | .ok p => p
  | .error _ => (caseContact, { actor := none, action := "", target_object := "", details := [] })

/-- Database holding the sample submitted case, used to exercise the
request wrappers. -/
def dbW : DB := { cases := [caseD1], log := [] }

/-- A case awaiting numbering, alongside a case that already carries
numbering number `NUM-7`. -/
def caseN : Case :=
  { newCaseRow 11 0 with tracking_id := some "PAS26010011", status := .for_numbering }

/-- The case that already holds numbering number `NUM-7`. -/
def caseNOther : Case :=
  { newCaseRow 12 0 with
      tracking_id := some "PAS26010012", status := .for_release,
      numbering_number := some "NUM-7" }

/-! ## Shape lemmas: what each successful view run produces -/

/-- A successful `receive_case` run requires the receiving role and a
pending or returned case, and produces exactly the received row. -/
theorem receive_case_ok {actor : User} {now : Nat} {c c' : Case} {e : AuditEntry}
    (h : receive_case actor now c = .ok (c', e)) :
    actor.role = .capitol_receiving ∧ (c.status = .not_received ∨ c.status = .returned) ∧
      c' = save_basic now
        { c with status := .received, received_at := some now,
                 received_by := some actor.id } := by
  unfold receive_case at h
  split at h
  · exact absurd h (by simp)
  split at h
  · exact absurd h (by simp)
  rename_i h1 h2
  simp only [Except.ok.injEq, Prod.mk.injEq] at h
  exact ⟨not_not.mp h1, not_not.mp h2, h.1.symm⟩

/-- A successful `return_case` run requires the receiving role, an
unassigned pending/received case and a nonblank reason, and produces
exactly the returned row (with `lgu_submitted_at` cleared). -/
theorem return_case_ok {actor : User} {now : Nat} {reasonRaw : String} {c c' : Case}
    {e : AuditEntry} (h : return_case actor now reasonRaw c = .ok (c', e)) :
    actor.role = .capitol_receiving ∧ (c.status = .not_received ∨ c.status = .received) ∧
      c.assigned_to = none ∧ pyStrip reasonRaw ≠ "" ∧
      c' = save_basic now
        { c with status := .returned, return_reason := pyStrip reasonRaw,
                 returned_at := some now, returned_by := some actor.id,
                 lgu_submitted_at := none } := by
  unfold return_case at h
  split at h
  · exact absurd h (by simp)
  split at h
  · exact absurd h (by simp)
  split at h
  · exact absurd h (by simp)
  split at h
  · exact absurd h (by simp)
  rename_i h1 h2 h3 h4
  simp only [Except.ok.injEq, Prod.mk.injEq] at h
  exact ⟨not_not.mp h1, not_not.mp h2, not_not.mp h3, h4, h.1.symm⟩

/-- A successful `case_wizard` finalize requires an owned, editable,
finalizable tracked case and flips a returned case back to
`not_received`, stamping `lgu_submitted_at` and nothing else. -/
theorem case_wizard_finalize_ok {actor : User} {now : Nat} {c c' : Case}
    (h : case_wizard_finalize actor now c = .ok c') :
    c.tracking_id ≠ none ∧ lgu_can_finalize actor c = true ∧
      c' = { c with status := if c.status = .returned then .not_received else c.status,
                    lgu_submitted_at := some now, updated_at := now } := by
  unfold case_wizard_finalize at h
  split at h
  · exact absurd h (by simp)
  split at h
  · exact absurd h (by simp)
  split at h
  · exact absurd h (by simp)
  split at h
  · exact absurd h (by simp)
  rename_i h1 h2 h3 h4
  simp only [Except.ok.injEq] at h
  exact ⟨h1, not_not.mp (by simpa using h4), h.symm⟩

/-- C4: returning a tracked case to the LGU and then finalizing the
resubmission leaves `tracking_id` exactly as issued (it is never
re-allocated: the save path short-circuits on an existing tracking id) and
lands the case back in `not_received`. -/
theorem return_then_finalize_round_trip (aRec aOwn : User) (now1 now2 : Nat)
    (reason : String) (c c1 c2 : Case) (e : AuditEntry) (t : String)
    (htrack : c.tracking_id = some t)
    (hret : return_case aRec now1 reason c = .ok (c1, e))
    (hfin : case_wizard_finalize aOwn now2 c1 = .ok c2) :
    c2.tracking_id = some t ∧ c2.status = .not_received := by
  obtain ⟨-, -, -, -, rfl⟩ := return_case_ok hret
  obtain ⟨-, -, rfl⟩ := case_wizard_finalize_ok hfin
  simp [save_basic, syncClientFields, htrack]

/-- C4 witness: the round trip evaluated on the sample case `caseD1`
(tracking id `PAS26010001`). -/
theorem return_then_finalize_round_trip_witness :
    caseD1.tracking_id = some "PAS26010001" ∧
      return_case recvB 30 "missing docs" caseD1 = .ok (caseD2, retD2.2) ∧
      case_wizard_finalize lguA 35 caseD2 = .ok caseD2fin ∧
      caseD2fin.tracking_id = some "PAS26010001" ∧ caseD2fin.status = .not_received := by
  refine ⟨by decide, by decide, by decide, ?_, ?_⟩
  · exact (return_then_finalize_round_trip recvB lguA 30 35 "missing docs" caseD1 caseD2
      caseD2fin retD2.2 "PAS26010001" (by decide) (by decide) (by decide)).1
  · exact (return_then_finalize_round_trip recvB lguA 30 35 "missing docs" caseD1 caseD2
      caseD2fin retD2.2 "PAS26010001" (by decide) (by decide) (by decide)).2

/-! ## C10: what `receive_case` writes -/

/-- C10 counterexample: receiving the sample tracked case whose legacy
`client_contact` is blank while `client_number` is set also rewrites
`client_contact` (the view's full `case.save()` runs the legacy-field
sync), so receiving does not leave "all other fields" unchanged. -/
theorem receive_case_writes_legacy_contact :
    (receive_case recvB 50 caseContact).toOption.map (fun p => p.1.client_contact) =
      some "0917" ∧
    caseContact.client_contact = "" := by decide

/-- C10 (amended): receiving a case writes only `status`, `received_at`,
`received_by`, the `auto_now` column `updated_at`, and — because the view
performs a full `case.save()` — the legacy derived columns `client_name` /
`client_contact` when those are blank; every other column, in particular
`return_reason`, `returned_at`, `returned_by`, `tracking_id`,
`numbering_number` and the assignment fields, is unchanged. -/
theorem receive_case_frame (actor : User) (now : Nat) (c c' : Case) (e : AuditEntry)
    (h : receive_case actor now c = .ok (c', e)) :
    c' = { syncClientFields c with
           status := .received, received_at := some now,
           received_by := some actor.id, updated_at := now } ∧
    c'.tracking_id = c.tracking_id ∧ c'.numbering_number = c.numbering_number ∧
    c'.return_reason = c.return_reason ∧ c'.returned_at = c.returned_at ∧
    c'.returned_by = c.returned_by ∧ c'.assigned_to = c.assigned_to ∧
    c'.assigned_at = c.assigned_at ∧ c'.released_at = c.released_at ∧
    c'.lgu_submitted_at = c.lgu_submitted_at ∧ c'.checklist = c.checklist ∧
    c'.submitted_by = c.submitted_by ∧ c'.case_type = c.case_type ∧
    c'.client_first_name = c.client_first_name ∧
    c'.client_last_name = c.client_last_name ∧
    c'.client_middle_name = c.client_middle_name ∧
    c'.client_suffix = c.client_suffix ∧ c'.client_number = c.client_number ∧
    c'.client_email = c.client_email ∧ c'.created_at = c.created_at ∧
    c'.id = c.id := by
  obtain ⟨-, -, rfl⟩ := receive_case_ok h
  simp [save_basic, syncClientFields, client_display_name, client_display_contact]

/-- C10 witness: the frame theorem evaluated on the sample receive run. -/
theorem receive_case_frame_witness :
    receive_case recvB 50 caseContact = .ok (caseContactRecd.1, caseContactRecd.2) ∧
    caseContactRecd.1.tracking_id = caseContact.tracking_id := by
  refine ⟨by decide, ?_⟩
  exact (receive_case_frame recvB 50 caseContact caseContactRecd.1 caseContactRecd.2
    (by decide)).2.1

/-! ## C6: case visibility -/

/-- C6 counterexample: the sample Capitol Examiner is not the submitter of
`caseV`, yet `_user_can_view_case` grants visibility, while the claim's
rule would deny it. -/
theorem capitol_staff_visibility_counterexample :
    user_can_view_case exmC caseV = true ∧ claim_can_view exmC caseV = false := by decide

/-- C6 (amended): `_user_can_view_case` grants visibility to the Super
Admin and to every Capitol role; an LGU Admin sees exactly their own
submissions; everyone else is denied, and `case_detail` surfaces every
denial as not-found (`Http404`), never as forbidden. -/
theorem case_visibility_spec (u : User) (c : Case) :
    (user_can_view_case u c = true ↔
      (u.role = .super_admin ∨ is_capitol_staff u = true ∨
        (u.role = .lgu_admin ∧ c.submitted_by = some u.id))) ∧
    (case_detail u c = .ok ↔ user_can_view_case u c = true) ∧
    case_detail u c ≠ .forbidden := by
  obtain ⟨i, role, un, em, act⟩ := u
  cases role <;> simp [user_can_view_case, case_detail, is_capitol_staff]
  by_cases h : c.submitted_by = some i <;> simp [h]

/-- C6 witness: the amended rule evaluated on the sample accounts — the
owning LGU admin sees their case, and the examiner's denied alternative is
surfaced as not-found, never forbidden. -/
theorem case_visibility_spec_witness :
    user_can_view_case lguA caseD1 = true ∧ case_detail exmC caseV ≠ .forbidden := by
  constructor
  · exact (case_visibility_spec lguA caseD1).1.mpr (Or.inr (Or.inr ⟨rfl, by decide⟩))
  · exact (case_visibility_spec exmC caseV).2.2

/-! ## C7: staff-id generation -/

/-- C7 counterexample: with the examiner holding pk 1 and the LGU admin
pk 2 (staff id sequence 0001), the next LGU staff id is computed from the
primary key (sequence 0003), not from the identifiers' sequence numbers
(which would yield 0002). -/
theorem staff_id_not_identifier_scan :
    generate_staff_id .lgu_admin staffUsers = "25-LGU-0003" ∧
    claim_staff_seq .lgu_admin staffUsers = 2 := by decide

/-- The pk-maximum fold underlying `last_user_by_id`, read off at the id
level. -/
theorem last_user_foldl (l : List User) : ∀ acc : Option User,
    ((l.foldl (fun acc u =>
        match acc with
        | none => some u
        | some v => if v.id ≤ u.id then some u else some v) acc).map User.id).getD 0
      = l.foldl (fun m u => max m u.id) ((acc.map User.id).getD 0) := by
  induction l with
  | nil => intro acc; rfl
  | cons u l ih =>
    intro acc
    cases acc with
    | none =>
      rw [List.foldl_cons, List.foldl_cons]
      rw [show ((none : Option User).map User.id).getD 0 = 0 from rfl]
      rw [ih (some u)]
      simp
    | some v =>
      rw [List.foldl_cons, List.foldl_cons]
      by_cases hle : v.id ≤ u.id
      · simp only [hle, if_true]
        rw [ih (some u)]
        simp [Nat.max_eq_right hle]
      · simp only [hle, if_false]
        rw [ih (some v)]
        simp [Nat.max_eq_left (Nat.le_of_not_le hle)]

/-- Filtering then folding a maximum equals folding with a guard. -/
theorem foldl_filter_max (r : Role) (l : List User) : ∀ acc : Nat,
    (l.filter (fun u => u.role = r)).foldl (fun m u => max m u.id) acc
      = l.foldl (fun m u => if u.role = r then max m u.id else m) acc := by
  induction l with
  | nil => intro acc; rfl
  | cons u l ih =>
    intro acc
    by_cases h : u.role = r
    · simp [List.filter_cons, h, ih]
    · simp [List.filter_cons, h, ih]

/-- The pk of the newest user with the role (0 when there is none),
expressed as a guarded fold over the whole table. -/
theorem last_user_by_id_seq (r : Role) (users : List User) :
    ((last_user_by_id r users).map User.id).getD 0 =
      users.foldl (fun m u => if u.role = r then max m u.id else m) 0 := by
  unfold last_user_by_id
  rw [← foldl_filter_max r users 0]
  simpa using last_user_foldl (users.filter (fun u => u.role = r)) none

/-- C7 (amended): `generate_staff_id` produces `"25-" ++ rolecode ++ "-"`
followed by the zero-padded value of one plus the largest database primary
key among existing users holding the role (1 when the role has no users);
the staff identifier strings are never scanned. -/
theorem generate_staff_id_by_pk (r : Role) (users : List User) :
    generate_staff_id r users =
      "25-" ++ pfxMap r ++ "-" ++
        pad4 (users.foldl (fun m u => if u.role = r then max m u.id else m) 0 + 1) := by
  have h := last_user_by_id_seq r users
  unfold generate_staff_id
  cases hF : last_user_by_id r users with
  | none =>
    rw [hF] at h
    simp only [Option.map_none', Option.getD_none] at h
    rw [← h]
  | some u =>
    rw [hF] at h
    simp only [Option.map_some', Option.getD_some] at h
    rw [← h]

/-! ## C3: tracking-id allocation -/

/-- On well-formed tables the allocator's guarded fold over the trailing
four digits computes exactly the maximum of the parsed sequence numbers. -/
theorem foldl_seq_eq (scope : String) : ∀ (l : List String) (acc : Nat),
    (∀ tid ∈ l, scope.data.isPrefixOf tid.data = true → (seqOfId scope tid).isSome) →
    ((l.filter (fun tid => scope.data.isPrefixOf tid.data)).foldl
      (fun m tid =>
        if 4 ≤ tid.data.length ∧ (lastFour tid).all Char.isDigit then
          max m (digitsVal (lastFour tid))
        else m) acc)
      = (l.filterMap (seqOfId scope)).foldl max acc := by
  intro l
  induction l with
  | nil => intro acc h; rfl
  | cons tid l ih =>
    intro acc h
    have htail : ∀ x ∈ l, scope.data.isPrefixOf x.data = true → (seqOfId scope x).isSome :=
      fun x hx => h x (List.mem_cons_of_mem tid hx)
    by_cases hp : scope.data.isPrefixOf tid.data = true
    · have hs := h tid (List.mem_cons_self tid l) hp
      unfold seqOfId at hs
      split at hs
      · rename_i hcond
        have hsome : seqOfId scope tid =
            some (digitsVal (tid.data.drop scope.data.length)) := by
          unfold seqOfId
          exact if_pos hcond
        obtain ⟨-, hlen, hdig⟩ := hcond
        have hdrop : lastFour tid = tid.data.drop scope.data.length := by
          unfold lastFour
          rw [hlen, Nat.add_sub_cancel]
        rw [List.filter_cons_of_pos (by simpa using hp),
            List.filterMap_cons_some hsome]
        simp only [List.foldl_cons]
        rw [if_pos ⟨by omega, by rw [hdrop]; exact hdig⟩, hdrop]
        exact ih (max acc (digitsVal (tid.data.drop scope.data.length))) htail
      · simp at hs
    · have hnone : seqOfId scope tid = none := by
        unfold seqOfId
        rw [if_neg]
        intro hcond
        exact hp hcond.1
      rw [List.filter_cons_of_neg (by simpa using hp),
          List.filterMap_cons_none hnone]
      exact ih acc htail

/-- C3: on a table whose identifiers sharing the scope are all well-formed
(`scope` followed by exactly four digits), `generate_tracking_id` returns
the scope followed by the zero-padded value of one plus the largest
existing sequence number (1 when none exist, indifferent to gaps), and
fails with the fatal overflow error — never wrapping — when that value
would exceed 9999. -/
theorem generate_tracking_id_spec (scope : String) (existing : List String)
    (hwf : ∀ tid ∈ existing, scope.data.isPrefixOf tid.data = true →
      (seqOfId scope tid).isSome) :
    generate_tracking_id scope existing =
      if specMaxSeq scope existing + 1 ≤ 9999 then
        .ok (scope ++ pad4 (specMaxSeq scope existing + 1))
      else .error "Monthly case sequence exceeded 9999" := by
  simp only [generate_tracking_id, specMaxSeq]
  rw [foldl_seq_eq scope existing 0 hwf]
  by_cases h : (existing.filterMap (seqOfId scope)).foldl max 0 + 1 ≤ 9999
  · rw [if_neg (by omega), if_pos h]
  · rw [if_pos (by omega), if_neg h]

/-- C3 witness: with existing identifiers 0001 and 0007 in scope `PAS2601`
the allocator issues 0008 (gap-tolerant, max-based). -/
theorem generate_tracking_id_spec_witness :
    (∀ tid ∈ ["PAS26010001", "PAS26010007"],
      ("PAS2601" : String).data.isPrefixOf tid.data = true →
        (seqOfId "PAS2601" tid).isSome) ∧
    generate_tracking_id "PAS2601" ["PAS26010001", "PAS26010007"] =
      .ok "PAS26010008" := by
  refine ⟨by decide, ?_⟩
  rw [generate_tracking_id_spec "PAS2601" ["PAS26010001", "PAS26010007"] (by decide)]
  decide

/-! ## C9: manual numbering -/

/-- C9: a mark-numbered request by a Capitol Numberer on a for-numbering
case is rejected — before any mutation, leaving the stored rows untouched —
when the stripped number is blank or already carried (case-insensitively)
by another case; otherwise the number is recorded and the case moves to
`for_release`. -/
theorem mark_numbered_spec (actor : User) (now : Nat) (table : List Case)
    (rawNum : String) (c : Case)
    (hrole : actor.role = .capitol_numberer) (hst : c.status = .for_numbering) :
    ((pyStrip rawNum = "" ∨ numbering_dupe table c.id (pyStrip rawNum) = true) →
        mark_numbered actor now table rawNum c = .error .precondition_failed) ∧
    (pyStrip rawNum ≠ "" → numbering_dupe table c.id (pyStrip rawNum) = false →
        mark_numbered actor now table rawNum c =
          .ok ({ c with
                 numbering_number := some (pyStrip rawNum), status := .for_release,
                 updated_at := now },
               { actor := some actor.id, action := "case_status_change",
                 target_object := targetOf c,
                 details := [("old_status", statusStr c.status),
                             ("new_status", "for_release"),
                             ("number", pyStrip rawNum)] })) ∧
    (∀ (users : List User) (db : DB) (tid : String),
      findCase db tid = some c → db.cases = table →
      (pyStrip rawNum = "" ∨ numbering_dupe table c.id (pyStrip rawNum) = true) →
      runView (.number rawNum) actor users now db tid =
        (db, some .precondition_failed)) := by
  have hrej : (pyStrip rawNum = "" ∨ numbering_dupe table c.id (pyStrip rawNum) = true) →
      mark_numbered actor now table rawNum c = .error .precondition_failed := by
    intro h
    rcases h with he | hd
    · simp [mark_numbered, hrole, hst, he]
    · by_cases he : pyStrip rawNum = ""
      · simp [mark_numbered, hrole, hst, he]
      · simp [mark_numbered, hrole, hst, he, hd]
  refine ⟨hrej, ?_, ?_⟩
  · intro hne hnd
    simp [mark_numbered, hrole, hst, hne, hnd, targetOf, statusStr]
  · intro users db tid hfind hdb h
    subst hdb
    simp only [runView, hfind, runAction, hrej h]

/-- C9 witness: `NUM-7` is already held by `caseNOther`, so marking `caseN`
with it fails, while the fresh number `NUM-8` (stripped from the raw
payload) is recorded and the case moves to `for_release`. -/
theorem mark_numbered_spec_witness :
    numE.role = .capitol_numberer ∧ caseN.status = .for_numbering ∧
    mark_numbered numE 60 [caseN, caseNOther] "NUM-7" caseN =
      .error .precondition_failed ∧
    mark_numbered numE 60 [caseN, caseNOther] " NUM-8 " caseN =
      .ok ({ caseN with
             numbering_number := some (pyStrip " NUM-8 "), status := .for_release,
             updated_at := 60 },
           { actor := some numE.id, action := "case_status_change",
             target_object := targetOf caseN,
             details := [("old_status", statusStr caseN.status),
                         ("new_status", "for_release"),
                         ("number", pyStrip " NUM-8 ")] }) := by
  refine ⟨by decide, by decide, ?_, ?_⟩
  · exact (mark_numbered_spec numE 60 [caseN, caseNOther] "NUM-7" caseN
      (by decide) (by decide)).1 (Or.inr (by decide))
  · exact (mark_numbered_spec numE 60 [caseN, caseNOther] " NUM-8 " caseN
      (by decide) (by decide)).2.1 (by decide) (by decide)

/-! ## C2 and the terminal part of C8: rejected requests -/

/-- A transition request whose actor role is not the one the
specification's table lists for the case's current status is always
rejected by the view (unauthorized role or invalid state), whatever its
payload. -/
theorem runAction_wrong_role_rejected (act : Action) (actor : User)
    (users : List User) (now : Nat) (table : List Case) (c : Case)
    (h : specAllowedRole c.status act ≠ some actor.role) :
    ∃ e, runAction act actor users now table c = .error e := by
  cases act with
  | receive =>
    by_cases hr : actor.role = .capitol_receiving
    · have hst : ¬(c.status = .not_received ∨ c.status = .returned) := by
        rw [hr] at h
        rintro (hs | hs) <;> rw [hs] at h <;> exact h rfl
      exact ⟨.invalid_state, by simp [runAction, receive_case, hr, hst]⟩
    · exact ⟨.unauthorized_role, by simp [runAction, receive_case, hr]⟩
  | return_to_lgu reason =>
    by_cases hr : actor.role = .capitol_receiving
    · have hst : ¬(c.status = .not_received ∨ c.status = .received) := by
        rw [hr] at h
        rintro (hs | hs) <;> rw [hs] at h <;> exact h rfl
      exact ⟨.invalid_state, by simp [runAction, return_case, hr, hst]⟩
    · exact ⟨.unauthorized_role, by simp [runAction, return_case, hr]⟩
  | assign eid =>
    by_cases hr : actor.role = .capitol_receiving
    · have hst : c.status ≠ .received := by
        rw [hr] at h
        intro hs
        rw [hs] at h
        exact h rfl
      exact ⟨.invalid_state, by simp [runAction, assign_case, hr, hst]⟩
    · exact ⟨.unauthorized_role, by simp [runAction, assign_case, hr]⟩
  | submit_approval =>
    by_cases hr : actor.role = .capitol_examiner
    · have hst : c.status ≠ .in_review := by
        rw [hr] at h
        intro hs
        rw [hs] at h
        exact h rfl
      exact ⟨.invalid_state, by simp [runAction, submit_for_approval, hr, hst]⟩
    · exact ⟨.unauthorized_role, by simp [runAction, submit_for_approval, hr]⟩
  | approve =>
    by_cases hr : actor.role = .capitol_approver
    · have hst : c.status ≠ .for_approval := by
        rw [hr] at h
        intro hs
        rw [hs] at h
        exact h rfl
      exact ⟨.invalid_state, by simp [runAction, approve_case, hr, hst]⟩
    · exact ⟨.unauthorized_role, by simp [runAction, approve_case, hr]⟩
  | correction reason =>
    by_cases hr : actor.role = .capitol_approver
    · have hst : c.status ≠ .for_approval := by
        rw [hr] at h
        intro hs
        rw [hs] at h
        exact h rfl
      exact ⟨.invalid_state, by simp [runAction, return_for_correction, hr, hst]⟩
    · exact ⟨.unauthorized_role, by simp [runAction, return_for_correction, hr]⟩
  | to_receiving reason =>
    by_cases hr : actor.role = .capitol_examiner
    · have hst : c.status ≠ .in_review := by
        rw [hr] at h
        intro hs
        rw [hs] at h
        exact h rfl
      exact ⟨.invalid_state, by simp [runAction, return_to_receiving, hr, hst]⟩
    · exact ⟨.unauthorized_role, by simp [runAction, return_to_receiving, hr]⟩
  | number num =>
    by_cases hr : actor.role = .capitol_numberer
    · have hst : c.status ≠ .for_numbering := by
        rw [hr] at h
        intro hs
        rw [hs] at h
        exact h rfl
      exact ⟨.invalid_state, by simp [runAction, mark_numbered, hr, hst]⟩
    · exact ⟨.unauthorized_role, by simp [runAction, mark_numbered, hr]⟩
  | release =>
    by_cases hr : actor.role = .capitol_releaser
    · have hst : c.status ≠ .for_release := by
        rw [hr] at h
        intro hs
        rw [hs] at h
        exact h rfl
      exact ⟨.invalid_state, by simp [runAction, release_case, hr, hst]⟩
    · exact ⟨.unauthorized_role, by simp [runAction, release_case, hr]⟩

/-- C2: a transition request from a role not listed for the case's current
status in the transition table is rejected, and both the case table and
the audit log are left completely unchanged. -/
theorem unauthorized_transition_rejected (act : Action) (actor : User)
    (users : List User) (now : Nat) (db : DB) (tid : String) (c : Case)
    (hfind : findCase db tid = some c)
    (hrole : specAllowedRole c.status act ≠ some actor.role) :
    (runView act actor users now db tid).1 = db ∧
      ∃ e, (runView act actor users now db tid).2 = some e := by
  obtain ⟨e, he⟩ := runAction_wrong_role_rejected act actor users now db.cases c hrole
  refine ⟨?_, ⟨e, ?_⟩⟩ <;> simp [runView, hfind, he]

/-- C2 witness: an examiner attempting `receive` on the sample pending
case is rejected with the database untouched. -/
theorem unauthorized_transition_rejected_witness :
    findCase dbW "PAS26010001" = some caseD1 ∧
    specAllowedRole caseD1.status .receive ≠ some exmC.role ∧
    (runView .receive exmC [] 99 dbW "PAS26010001").1 = dbW ∧
    (∃ e, (runView .receive exmC [] 99 dbW "PAS26010001").2 = some e) := by
  refine ⟨by decide, by decide, ?_, ?_⟩
  · exact (unauthorized_transition_rejected .receive exmC [] 99 dbW "PAS26010001"
      caseD1 (by decide) (by decide)).1
  · exact (unauthorized_transition_rejected .receive exmC [] 99 dbW "PAS26010001"
      caseD1 (by decide) (by decide)).2

/-! ## C1: transition and audit append commit together -/

/-- C1: under the one-transaction-per-request boundary the spec prescribes
(spec-modelled, see `runViewTx`), a transition either commits the case
mutation together with exactly one appended audit entry or leaves the
database untouched: no execution mutates the case table without durably
appending the audit entry, and a failed append rolls everything back. -/
theorem transition_atomic_with_audit (act : Action) (actor : User)
    (users : List User) (now : Nat) (appendOk : Bool) (db : DB) (tid : String) :
    ((runViewTx act actor users now appendOk db tid).1.cases ≠ db.cases →
      ∃ e, (runViewTx act actor users now appendOk db tid).1.log = db.log ++ [e]) ∧
    (appendOk = false → (runViewTx act actor users now appendOk db tid).1 = db) := by
  unfold runViewTx
  cases hf : findCase db tid with
  | none => simp
  | some c =>
    cases hr : runAction act actor users now db.cases c with
    | error e => simp [hr]
    | ok p =>
      obtain ⟨c1, e1⟩ := p
      cases appendOk with
      | false => simp [hr]
      | true =>
        refine ⟨fun _ => ⟨e1, ?_⟩, fun hfalse => by simp at hfalse⟩
        simp [hr, commitOk]

/-- C1 witness: receiving the sample pending case mutates the case table
and appends exactly its audit entry. -/
theorem transition_atomic_with_audit_witness :
    (runViewTx .receive recvB [] 50 true dbW "PAS26010001").1.cases ≠ dbW.cases ∧
    (∃ e, (runViewTx .receive recvB [] 50 true dbW "PAS26010001").1.log =
      dbW.log ++ [e]) := by
  refine ⟨by decide, ?_⟩
  exact (transition_atomic_with_audit .receive recvB [] 50 true dbW "PAS26010001").1
    (by decide)

/-! ## Step-effect lemmas for the single-case lifecycle -/

/-- `_lgu_can_edit_details` only holds on draft / not-received / returned
cases. -/
theorem lgu_can_edit_details_status {u : User} {c : Case}
    (h : lgu_can_edit_details u c = true) :
    c.status = .draft ∨ c.status = .not_received ∨ c.status = .returned := by
  unfold lgu_can_edit_details at h
  simp only [decide_eq_true_eq] at h
  exact h.2

/-- `_lgu_can_finalize` implies `_lgu_can_edit_details`. -/
theorem lgu_can_finalize_edit {u : User} {c : Case}
    (h : lgu_can_finalize u c = true) : lgu_can_edit_details u c = true := by
  unfold lgu_can_finalize at h
  simp only [decide_eq_true_eq] at h
  exact h.1

/-- Bundled effects of any successful transition view: tracking id is
untouched, the case was not and does not become a draft, and a case that
becomes released carries `released_at`. -/
theorem runAction_ok {act : Action} {actor : User} {users : List User} {now : Nat}
    {table : List Case} {c c' : Case} {e : AuditEntry}
    (h : runAction act actor users now table c = .ok (c', e)) :
    c'.tracking_id = c.tracking_id ∧ c.status ≠ .draft ∧ c'.status ≠ .draft ∧
      (c'.status = .released → c'.released_at ≠ none) := by
  cases act <;> simp only [runAction] at h
  case receive =>
    obtain ⟨-, hs, rfl⟩ := receive_case_ok h
    refine ⟨by simp [save_basic, syncClientFields], ?_,
      by simp [save_basic, syncClientFields], ?_⟩
    · rcases hs with hs | hs <;> simp [hs]
    · intro habs
      simp [save_basic, syncClientFields] at habs
  case return_to_lgu reason =>
    obtain ⟨-, hs, -, -, rfl⟩ := return_case_ok h
    refine ⟨by simp [save_basic, syncClientFields], ?_,
      by simp [save_basic, syncClientFields], ?_⟩
    · rcases hs with hs | hs <;> simp [hs]
    · intro habs
      simp [save_basic, syncClientFields] at habs
  case assign eid =>
    unfold assign_case at h
    cases hfind : users.find? (fun u =>
        decide (u.id = eid ∧ u.role = .capitol_examiner ∧ u.is_active = true)) with
    | none =>
      rw [hfind] at h
      split at h
      · exact absurd h (by simp)
      split at h
      · exact absurd h (by simp)
      exact absurd h (by simp)
    | some ex =>
      rw [hfind] at h
      split at h
      · exact absurd h (by simp)
      split at h
      · exact absurd h (by simp)
      rename_i h1 h2
      rw [not_or] at h2
      obtain ⟨hst, -⟩ := h2
      simp only [Except.ok.injEq, Prod.mk.injEq] at h
      obtain ⟨hc, -⟩ := h
      subst hc
      have hs : c.status = .received := not_not.mp hst
      refine ⟨by simp [save_basic, syncClientFields], by simp [hs],
        by simp [save_basic, syncClientFields], ?_⟩
      intro habs
      simp [save_basic, syncClientFields] at habs
  case submit_approval =>
    unfold submit_for_approval at h
    split at h
    · exact absurd h (by simp)
    split at h
    · exact absurd h (by simp)
    rename_i h1 h2
    rw [not_or] at h2
    obtain ⟨hst, -⟩ := h2
    simp only [Except.ok.injEq, Prod.mk.injEq] at h
    obtain ⟨hc, -⟩ := h
    subst hc
    exact ⟨rfl, by simp [not_not.mp hst], by simp, by simp⟩
  case approve =>
    unfold approve_case at h
    split at h
    · exact absurd h (by simp)
    split at h
    · exact absurd h (by simp)
    rename_i h1 h2
    simp only [Except.ok.injEq, Prod.mk.injEq] at h
    obtain ⟨hc, -⟩ := h
    subst hc
    exact ⟨rfl, by simp [not_not.mp h2], by simp, by simp⟩
  case correction reason =>
    unfold return_for_correction at h
    split at h
    · exact absurd h (by simp)
    split at h
    · exact absurd h (by simp)
    split at h
    · exact absurd h (by simp)
    rename_i h1 h2 h3
    simp only [Except.ok.injEq, Prod.mk.injEq] at h
    obtain ⟨hc, -⟩ := h
    subst hc
    exact ⟨rfl, by simp [not_not.mp h2], by simp, by simp⟩
  case to_receiving reason =>
    unfold return_to_receiving at h
    split at h
    · exact absurd h (by simp)
    split at h
    · exact absurd h (by simp)
    split at h
    · exact absurd h (by simp)
    rename_i h1 h2 h3
    rw [not_or] at h2
    obtain ⟨hst, -⟩ := h2
    simp only [Except.ok.injEq, Prod.mk.injEq] at h
    obtain ⟨hc, -⟩ := h
    subst hc
    exact ⟨rfl, by simp [not_not.mp hst], by simp, by simp⟩
  case number num =>
    unfold mark_numbered at h
    split at h
    · exact absurd h (by simp)
    split at h
    · exact absurd h (by simp)
    split at h
    · exact absurd h (by simp)
    split at h
    · exact absurd h (by simp)
    rename_i h1 h2 h3 h4
    simp only [Except.ok.injEq, Prod.mk.injEq] at h
    obtain ⟨hc, -⟩ := h
    subst hc
    exact ⟨rfl, by simp [not_not.mp h2], by simp, by simp⟩
  case release =>
    unfold release_case at h
    split at h
    · exact absurd h (by simp)
    split at h
    · exact absurd h (by simp)
    rename_i h1 h2
    simp only [Except.ok.injEq, Prod.mk.injEq] at h
    obtain ⟨hc, -⟩ := h
    subst hc
    exact ⟨rfl, by simp [not_not.mp h2], by simp, by simp⟩

/-- A successful fresh `submit_case` creation yields a draft with neither a
tracking id nor a release stamp. -/
theorem submit_case_new_ok {actor : User} {now pk : Nat} {f : CaseForm}
    {seed : List ChecklistItem} {c : Case}
    (h : submit_case_new actor now pk f seed = .ok c) :
    c.status = .draft ∧ c.tracking_id = none ∧ c.released_at = none := by
  unfold submit_case_new at h
  split at h
  · exact absurd h (by simp)
  split at h
  · exact absurd h (by simp)
  simp only [Except.ok.injEq] at h
  subst h
  refine ⟨?_, ?_, ?_⟩ <;>
    simp [save_basic, syncClientFields, applyForm, newCaseRow]

/-- Successful duplicate-draft consolidation rewrites the row with the form
fields, forcing draft status and a cleared submission stamp. -/
theorem submit_case_dedup_ok {actor : User} {now : Nat} {f : CaseForm} {c c' : Case}
    (h : submit_case_dedup actor now f c = .ok c') :
    c' = { applyForm f c with
           status := .draft, lgu_submitted_at := none, updated_at := now } := by
  unfold submit_case_dedup at h
  split at h
  · exact absurd h (by simp)
  split at h
  · exact absurd h (by simp)
  split at h
  · exact absurd h (by simp)
  simp only [Except.ok.injEq] at h
  exact h.symm

/-- Successful `draft_wizard` step 1 saves the form with draft status and a
cleared submission stamp. -/
theorem draft_wizard_step1_ok {actor : User} {now : Nat} {f : CaseForm} {c c' : Case}
    (h : draft_wizard_step1 actor now f c = .ok c') :
    c' = save_basic now
      { applyForm f c with status := .draft, lgu_submitted_at := none } := by
  unfold draft_wizard_step1 at h
  split at h
  · exact absurd h (by simp)
  split at h
  · exact absurd h (by simp)
  split at h
  · exact absurd h (by simp)
  split at h
  · exact absurd h (by simp)
  simp only [Except.ok.injEq] at h
  exact h.symm

/-- Successful `draft_wizard` step 2 saves the checklist with draft status
and a cleared submission stamp. -/
theorem draft_wizard_step2_ok {actor : User} {now : Nat} {l : List ChecklistItem}
    {c c' : Case} (h : draft_wizard_step2 actor now l c = .ok c') :
    c' = { c with
           checklist := l, status := .draft, lgu_submitted_at := none,
           updated_at := now } := by
  unfold draft_wizard_step2 at h
  split at h
  · exact absurd h (by simp)
  split at h
  · exact absurd h (by simp)
  split at h
  · exact absurd h (by simp)
  split at h
  · exact absurd h (by simp)
  simp only [Except.ok.injEq] at h
  exact h.symm

/-- Successful `draft_wizard` finalize lands in `not_received` with a
tracking id: the one already on the row when present, a fresh allocation
otherwise; `released_at` is untouched. -/
theorem draft_wizard_finalize_ok {actor : User} {now : Nat} {scope : String}
    {existing : List String} {c c' : Case}
    (h : draft_wizard_finalize actor now scope existing c = .ok c') :
    c'.status = .not_received ∧ c'.released_at = c.released_at ∧
      c'.tracking_id ≠ none ∧
      (∀ t, c.tracking_id = some t → c'.tracking_id = some t) := by
  unfold draft_wizard_finalize at h
  split at h
  · exact absurd h (by simp)
  split at h
  · exact absurd h (by simp)
  split at h
  · exact absurd h (by simp)
  split at h
  · exact absurd h (by simp)
  split at h
  case _ t heq =>
    simp only [Except.ok.injEq] at h
    subst h
    simp [heq]
  case _ heq =>
    split at h
    · exact absurd h (by simp)
    simp only [Except.ok.injEq] at h
    subst h
    simp [heq]

/-- Successful `case_wizard` step 1 on a tracked editable case is a full
save of the form fields. -/
theorem case_wizard_step1_ok {actor : User} {now : Nat} {f : CaseForm} {c c' : Case}
    (h : case_wizard_step1 actor now f c = .ok c') :
    c.tracking_id ≠ none ∧ lgu_can_edit_details actor c = true ∧
      c' = save_basic now (applyForm f c) := by
  unfold case_wizard_step1 at h
  split at h
  · exact absurd h (by simp)
  split at h
  · exact absurd h (by simp)
  split at h
  · exact absurd h (by simp)
  split at h
  · exact absurd h (by simp)
  rename_i h1 h2 h3 h4
  simp only [Except.ok.injEq] at h
  exact ⟨h1, not_not.mp (by simpa using h3), h.symm⟩

/-- Successful `case_wizard` step 2 on a tracked editable case saves the
checklist, flips a returned case to `not_received`, and clears the
submission stamp. -/
theorem case_wizard_step2_ok {actor : User} {now : Nat} {l : List ChecklistItem}
    {c c' : Case} (h : case_wizard_step2 actor now l c = .ok c') :
    c.tracking_id ≠ none ∧ lgu_can_edit_details actor c = true ∧
      c' = { c with
             checklist := l,
             status := if c.status = .returned then .not_received else c.status,
             lgu_submitted_at := none, updated_at := now } := by
  unfold case_wizard_step2 at h
  split at h
  · exact absurd h (by simp)
  split at h
  · exact absurd h (by simp)
  split at h
  · exact absurd h (by simp)
  split at h
  · exact absurd h (by simp)
  rename_i h1 h2 h3 h4
  simp only [Except.ok.injEq] at h
  exact ⟨h1, not_not.mp (by simpa using h3), h.symm⟩

/-- Every successful single-row rewrite preserves an issued tracking id,
stamps `released_at` whenever it lands in `released`, and transports the
"non-draft rows carry a tracking id" invariant. -/
theorem step_preserves {c c' : Case} (h : Step c c') :
    (∀ t, c.tracking_id = some t → c'.tracking_id = some t) ∧
    (c'.status = .released → c'.released_at ≠ none) ∧
    ((c.status ≠ .draft → c.tracking_id ≠ none) →
      c'.status ≠ .draft → c'.tracking_id ≠ none) := by
  cases h with
  | transition act actor users now table c0 c1 hstep =>
    cases hv : runAction act actor users now table c with
    | error e =>
      rw [hv] at hstep
      simp [Except.toOption] at hstep
    | ok p =>
      rw [hv] at hstep
      simp only [Except.toOption, Option.map_some', Option.some.injEq] at hstep
      obtain ⟨htr, hnd, hnd', hrel⟩ :=
        runAction_ok (show runAction act actor users now table c = .ok (p.1, p.2) by
          rw [hv])
      subst hstep
      refine ⟨fun t ht => by rw [htr]; exact ht, hrel, ?_⟩
      intro hinv _
      rw [htr]
      exact hinv hnd
  | dedup actor now f c0 c1 hstep =>
    cases hv : submit_case_dedup actor now f c with
    | error e =>
      rw [hv] at hstep
      simp [Except.toOption] at hstep
    | ok x =>
      rw [hv] at hstep
      simp only [Except.toOption, Option.some.injEq] at hstep
      subst hstep
      have hx := submit_case_dedup_ok hv
      subst hx
      refine ⟨fun t ht => by simpa [applyForm] using ht, by simp, ?_⟩
      intro _ habs
      simp at habs
  | draft1 actor now f c0 c1 hstep =>
    cases hv : draft_wizard_step1 actor now f c with
    | error e =>
      rw [hv] at hstep
      simp [Except.toOption] at hstep
    | ok x =>
      rw [hv] at hstep
      simp only [Except.toOption, Option.some.injEq] at hstep
      subst hstep
      have hx := draft_wizard_step1_ok hv
      subst hx
      refine ⟨fun t ht => by simpa [save_basic, syncClientFields, applyForm] using ht,
        by simp [save_basic, syncClientFields], ?_⟩
      intro _ habs
      simp [save_basic, syncClientFields] at habs
  | draft2 actor now l c0 c1 hstep =>
    cases hv : draft_wizard_step2 actor now l c with
    | error e =>
      rw [hv] at hstep
      simp [Except.toOption] at hstep
    | ok x =>
      rw [hv] at hstep
      simp only [Except.toOption, Option.some.injEq] at hstep
      subst hstep
      have hx := draft_wizard_step2_ok hv
      subst hx
      refine ⟨fun t ht => by simpa using ht, by simp, ?_⟩
      intro _ habs
      simp at habs
  | draftFin actor now scope existing c0 c1 hstep =>
    cases hv : draft_wizard_finalize actor now scope existing c with
    | error e =>
      rw [hv] at hstep
      simp [Except.toOption] at hstep
    | ok x =>
      rw [hv] at hstep
      simp only [Except.toOption, Option.some.injEq] at hstep
      subst hstep
      obtain ⟨hst, hrel, htr, hkeep⟩ := draft_wizard_finalize_ok hv
      refine ⟨hkeep, ?_, fun _ _ => htr⟩
      intro habs
      rw [hst] at habs
      exact absurd habs (by simp)
  | wiz1 actor now f c0 c1 hstep =>
    cases hv : case_wizard_step1 actor now f c with
    | error e =>
      rw [hv] at hstep
      simp [Except.toOption] at hstep
    | ok x =>
      rw [hv] at hstep
      simp only [Except.toOption, Option.some.injEq] at hstep
      subst hstep
      obtain ⟨htr, hedit, hx⟩ := case_wizard_step1_ok hv
      subst hx
      refine ⟨fun t ht => by simpa [save_basic, syncClientFields, applyForm] using ht,
        ?_, ?_⟩
      · intro habs
        have : c.status = .released := by
          simpa [save_basic, syncClientFields, applyForm] using habs
        rcases lgu_can_edit_details_status hedit with hs | hs | hs <;>
          rw [hs] at this <;> exact absurd this (by simp)
      · intro _ _
        simpa [save_basic, syncClientFields, applyForm] using htr
  | wiz2 actor now l c0 c1 hstep =>
    cases hv : case_wizard_step2 actor now l c with
    | error e =>
      rw [hv] at hstep
      simp [Except.toOption] at hstep
    | ok x =>
      rw [hv] at hstep
      simp only [Except.toOption, Option.some.injEq] at hstep
      subst hstep
      obtain ⟨htr, hedit, hx⟩ := case_wizard_step2_ok hv
      subst hx
      refine ⟨fun t ht => by simpa using ht, ?_, ?_⟩
      · intro habs
        simp only at habs
        rcases lgu_can_edit_details_status hedit with hs | hs | hs <;>
          simp [hs] at habs
      · intro _ _
        simpa using htr
  | wizFin actor now c0 c1 hstep =>
    cases hv : case_wizard_finalize actor now c with
    | error e =>
      rw [hv] at hstep
      simp [Except.toOption] at hstep
    | ok x =>
      rw [hv] at hstep
      simp only [Except.toOption, Option.some.injEq] at hstep
      subst hstep
      obtain ⟨htr, hfin, hx⟩ := case_wizard_finalize_ok hv
      subst hx
      refine ⟨fun t ht => by simpa using ht, ?_, ?_⟩
      · intro habs
        simp only at habs
        rcases lgu_can_edit_details_status (lgu_can_finalize_edit hfin) with hs | hs | hs <;>
          simp [hs] at habs
      · intro _ _
        simpa using htr

/-! ## C5 and C8: lifecycle invariants -/

/-- C5 counterexample: a fully reachable run — create a draft, finalize it
(tracking id `PAS26010001` issued), have Capitol Receiving return it, then
let the owner reopen the details form (`draft_wizard` step 1) — ends in a
case whose status is `draft` while its tracking id is still set, so
"tracking_id is set iff status ≠ draft" fails on the code. -/
theorem tracked_case_reverts_to_draft :
    ReachableCase caseD3 ∧ caseD3.status = .draft ∧
      caseD3.tracking_id = some "PAS26010001" := by
  refine ⟨?_, by decide, by decide⟩
  have h0 : ReachableCase caseD0 :=
    .created lguA 10 1 formA [] caseD0 (by decide)
  have h1 : ReachableCase caseD1 :=
    h0.step (.draftFin lguA 20 "PAS2601" [] caseD0 caseD1 (by decide))
  have h2 : ReachableCase caseD2 :=
    h1.step (.transition (.return_to_lgu "missing docs") recvB [] 30 [] caseD1 caseD2
      (by decide))
  exact h2.step (.draft1 lguA 40 formA caseD2 caseD3 (by decide))

/-- C5 (amended): an issued tracking id is never changed by any
state-changing view, and every reachable non-draft case carries one; the
converse direction of the claimed "iff" fails because the draft-editing
paths can move a tracked returned case back to `draft` status. -/
theorem tracking_id_lifecycle :
    (∀ c c' : Case, Step c c' → ∀ t, c.tracking_id = some t →
      c'.tracking_id = some t) ∧
    (∀ c : Case, ReachableCase c → c.status ≠ .draft → c.tracking_id ≠ none) := by
  constructor
  · intro c c' h t ht
    exact (step_preserves h).1 t ht
  · intro c hr
    induction hr with
    | created actor now pk f seed c hok =>
      cases hv : submit_case_new actor now pk f seed with
      | error e =>
        rw [hv] at hok
        simp [Except.toOption] at hok
      | ok x =>
        rw [hv] at hok
        simp only [Except.toOption, Option.some.injEq] at hok
        subst hok
        obtain ⟨hst, -, -⟩ := submit_case_new_ok hv
        intro hnd
        exact absurd hst hnd
    | step hsr hstep ih =>
      exact (step_preserves hstep).2.2 ih

/-- C5 witness: the immutability half on the sample return step, and the
non-draft half on the sample submitted case. -/
theorem tracking_id_lifecycle_witness :
    caseD2.tracking_id = some "PAS26010001" ∧ caseD1.tracking_id ≠ none := by
  constructor
  · exact tracking_id_lifecycle.1 caseD1 caseD2
      (.transition (.return_to_lgu "missing docs") recvB [] 30 [] caseD1 caseD2
        (by decide))
      "PAS26010001" (by decide)
  · have h0 : ReachableCase caseD0 :=
      .created lguA 10 1 formA [] caseD0 (by decide)
    have h1 : ReachableCase caseD1 :=
      h0.step (.draftFin lguA 20 "PAS2601" [] caseD0 caseD1 (by decide))
    exact tracking_id_lifecycle.2 caseD1 h1 (by decide)

/-- C8: every reachable released case carries a non-null `released_at`,
and `released` is terminal — each of the nine transition views rejects any
request on a released case, whatever the actor's role or payload. -/
theorem released_is_terminal :
    (∀ c : Case, ReachableCase c → c.status = .released → c.released_at ≠ none) ∧
    (∀ (act : Action) (actor : User) (users : List User) (now : Nat)
        (table : List Case) (c : Case), c.status = .released →
      ∃ e, runAction act actor users now table c = .error e) := by
  constructor
  · intro c hr
    induction hr with
    | created actor now pk f seed c hok =>
      cases hv : submit_case_new actor now pk f seed with
      | error e =>
        rw [hv] at hok
        simp [Except.toOption] at hok
      | ok x =>
        rw [hv] at hok
        simp only [Except.toOption, Option.some.injEq] at hok
        subst hok
        obtain ⟨hst, -, -⟩ := submit_case_new_ok hv
        intro habs
        rw [hst] at habs
        exact absurd habs (by simp)
    | step hsr hstep ih =>
      exact (step_preserves hstep).2.1
  · intro act actor users now table c hs
    apply runAction_wrong_role_rejected
    rw [hs]
    cases act <;> simp [specAllowedRole]

/-- C8 witness: the sample case driven through the whole workflow to
`released`, with a subsequent receive attempt rejected. -/
theorem released_is_terminal_witness :
    caseE7.status = .released ∧ caseE7.released_at ≠ none ∧
      ∃ e, runAction .receive recvB [] 99 [] caseE7 = .error e := by
  refine ⟨by decide, ?_, ?_⟩
  · have h0 : ReachableCase caseD0 :=
      .created lguA 10 1 formA [] caseD0 (by decide)
    have h1 : ReachableCase caseD1 :=
      h0.step (.draftFin lguA 20 "PAS2601" [] caseD0 caseD1 (by decide))
    have h2 : ReachableCase caseE2 :=
      h1.step (.transition .receive recvB [] 50 [] caseD1 caseE2 (by decide))
    have h3 : ReachableCase caseE3 :=
      h2.step (.transition (.assign 3) recvB [exmC] 51 [] caseE2 caseE3 (by decide))
    have h4 : ReachableCase caseE4 :=
      h3.step (.transition .submit_approval exmC [] 52 [] caseE3 caseE4 (by decide))
    have h5 : ReachableCase caseE5 :=
      h4.step (.transition .approve aprD [] 53 [] caseE4 caseE5 (by decide))
    have h6 : ReachableCase caseE6 :=
      h5.step (.transition (.number "NUM-0001") numE [] 54 [caseE5] caseE5 caseE6
        (by decide))
    have h7 : ReachableCase caseE7 :=
      h6.step (.transition .release relF [] 55 [] caseE6 caseE7 (by decide))
    exact released_is_terminal.1 caseE7 h7 (by decide)
  · exact released_is_terminal.2 .receive recvB [] 99 [] caseE7 (by decide)

end LegalTrack
